import Mathlib

/-
Verification of the "spot the animal" AR mini-game
(src/templates/app-base/src/components/screens/ARScreen.tsx and the
revisions concatenated in src/unnamed/part_000).

The React component is embedded shallowly: component state and refs become
fields of explicit state records, event handlers become pure transition
functions, `setTimeout` continuations become explicitly scheduled pending
actions tagged with their millisecond delays, and the sounds played /
navigation calls made become an accumulated effect log.  `Math.random()`
outcomes (which side holds the correct animal, which wrong animal is drawn)
are passed in as parameters.  Numeric coordinates are ℚ.
-/

namespace RA2

/-- The five animal labels (`type AnimalType` in ARScreen.tsx). -/
inductive AnimalType
  | gato
  | cachorro
  | galinha
  | vaca
  | porco
deriving DecidableEq, Repr

/-- `interface AnimalConfig`: a label plus the two image paths. -/
structure AnimalConfig where
  name : AnimalType
  topImage : String
  arImage : String
deriving DecidableEq, Repr

/-- The fixed `ANIMALS` list, ARScreen.tsx lines 26-32. -/
def ANIMALS : List AnimalConfig :=
  [ { name := .gato, topImage := "gatotop.png", arImage := "Gato.png" },
    { name := .cachorro, topImage := "cachorrotop.png", arImage := "Cachorro.png" },
    { name := .galinha, topImage := "galinhatop.png", arImage := "Galinha.png" },
    { name := .vaca, topImage := "vacatop.png", arImage := "Vaca.png" },
    { name := .porco, topImage := "porcotop.png", arImage := "Porco.png" } ]

/-- `const TOTAL_ROUNDS = 5`. -/
def TOTAL_ROUNDS : Nat := 5

/-- `const MOVE_STEP = 0.2`. -/
def MOVE_STEP : ℚ := 2/10

/-- `const INITIAL_ANIMAL_Z = -6` (ARScreen.tsx line 39). -/
def INITIAL_ANIMAL_Z : ℚ := -6

/-- A 3D position, as stored in `correctEntityPosRef`. -/
structure Vec3 where
  x : ℚ
  y : ℚ
  z : ℚ
deriving DecidableEq, Repr

/-- JavaScript `key.toLowerCase()`: lower-case every character (they agree
on the ASCII key names involved). -/
def jsToLower (s : String) : String := String.mk (s.data.map Char.toLower)

/--
The WASD keydown handler of ARScreen.tsx lines 530-564, restricted to its
effect on `correctEntityPosRef.current`.  `correctId` models
`correctEntityIdRef.current` and `sceneAttached` models `arSceneRef.current`
being non-null: if either is missing the handler returns without moving.
The six `if` statements are sequential in the source; they are translated
as a sequential fold over the destructured coordinates.
-/
def wasdHandler (correctId : Option String) (sceneAttached : Bool)
    (key : String) (pos : Vec3) : Vec3 :=
  match correctId, sceneAttached with
  | none, _ => pos
  | _, false => pos
  | some _, true =>
    let x := pos.x
    let y := pos.y
    let z := pos.z
    let z := if jsToLower key = "w" then z - MOVE_STEP else z
    let z := if jsToLower key = "s" then z + MOVE_STEP else z
    let x := if jsToLower key = "a" then x - MOVE_STEP else x
    let x := if jsToLower key = "d" then x + MOVE_STEP else x
    let y := if key = "ArrowUp" then y + MOVE_STEP else y
    let y := if key = "ArrowDown" then y - MOVE_STEP else y
    ⟨x, y, z⟩

/-- Outcomes of the camera-setup attempt in ARScreen.tsx lines 89-173.
`ok playFails` is the success path of `getUserMedia`, with `playFails`
recording whether the inner `await video.play()` rejected; `errAbort` and
`errOther` are rejections reaching the outer `catch`, split on
`err.name === "AbortError"`. -/
inductive CamOutcome
  | ok (playFails : Bool)
  | errAbort
  | errOther
deriving DecidableEq, Repr

/-- Console messages emitted by `setupCamera`. -/
inductive CamLog
  | warnPlayFailed
  | warnAbort
  | errorCam
deriving DecidableEq, Repr

/-- Observable result of `setupCamera`: the `arLoading` flag after the
function finishes, the delay (ms) of the scheduled `setIsFadingIn(true)`
timeout, and the console messages logged. -/
structure CamResult where
  arLoading : Bool
  fadeInDelay : Option Nat
  logs : List CamLog
deriving DecidableEq, Repr

/--
`setupCamera` of ARScreen.tsx lines 89-173, as a function of which of its
awaited operations fail.  On success: the inner try/catch logs a warning if
`video.play()` rejects, then `setArLoading(false)` runs and the fade-in is
scheduled at 100 ms.  On any error reaching the outer catch: the error is
logged (a warning for `AbortError`, `console.error` otherwise), then
`setArLoading(false)` runs and the fade-in is scheduled at 100 ms.
-/
def setupCamera : CamOutcome → CamResult
  | .ok playFails =>
      { arLoading := false
        fadeInDelay := some 100
        logs := if playFails then [.warnPlayFailed] else [] }
  | .errAbort =>
      { arLoading := false
        fadeInDelay := some 100
        logs := [.warnAbort] }
  | .errOther =>
      { arLoading := false
        fadeInDelay := some 100
        logs := [.errorCam] }

/-- Whether a camera outcome is an error reaching the outer catch. -/
def CamOutcome.isErr : CamOutcome → Bool
  | .ok _ => false
  | .errAbort => true
  | .errOther => true

/-- The debug canvas (`debugCanvasRef.current`): only its dimensions are read. -/
structure Canvas where
  width : ℚ
  height : ℚ

/-- One element of the array returned by `worldPositionsToScreenPositions`
(src/unnamed/part_000 lines 84-92). -/
structure ScreenCircle where
  x : ℚ
  y : ℚ
  key : String
  color : String
  animalName : AnimalType
  screenPxRadius : ℚ
  entityId : String

/-- `entityIdToAnimal.current`, a `Record<string, AnimalType>`, as an
association list. -/
def recordLookup (m : List (String × AnimalType)) (id : String) :
    Option AnimalType :=
  (m.find? (fun p => p.1 == id)).map (fun p => p.2)

/--
`worldPositionsToScreenPositions` of src/unnamed/part_000 lines 82-125.
`three` models the presence of the global `window.THREE`; `camObj` is the
camera object, abstracted to its `THREE.Vector3.project` action on world
positions (THREE.js itself is outside the repository).  `leftId`/`rightId`
are `animalEntitiesRef.current` and `leftPos`/`rightPos` are
`animalsWorldPosRef.current`.  The `for` loop with `continue` becomes a
fold over the two-element `animalsToCheck` list.
-/
def worldPositionsToScreenPositions (canvas : Option Canvas) (three : Bool)
    (camObj : Option (Vec3 → Vec3)) (leftId rightId : Option String)
    (leftPos rightPos : Option Vec3)
    (entityIdToAnimal : List (String × AnimalType)) : List ScreenCircle :=
  match canvas with
  | none => []
  | some cv =>
    if !three then [] else
    match camObj with
    | none => []
    | some proj =>
      let animalScreenRadius : ℚ := 37
      let animalsToCheck :
          List (Option String × Option Vec3 × String × String) :=
        [ (leftId, leftPos, "left", "rgba(33, 99, 255, 0.6)"),
          (rightId, rightPos, "right", "rgba(145, 200, 255, 0.6)") ]
      animalsToCheck.foldl (fun res entry =>
        match entry with
        | (some id, some pos, _key, color) =>
          let vector := proj pos
          let sx := (vector.x + 1) / 2 * cv.width
          let sy := (1 - (vector.y + 1) / 2) * cv.height
          let nameFromMapping := recordLookup entityIdToAnimal id
          res ++ [{ x := sx, y := sy, key := id, color := color,
                    animalName := nameFromMapping.getD .gato,
                    screenPxRadius := animalScreenRadius, entityId := id }]
        | _ => res) []

/-- The entity ids of the slots whose id and stored world position are both
non-null, in left-right order (specification helper for the theorem about
`worldPositionsToScreenPositions`). -/
def presentEntityIds (leftId rightId : Option String)
    (leftPos rightPos : Option Vec3) : List String :=
  (match leftId, leftPos with
   | some i, some _ => [i]
   | _, _ => []) ++
  (match rightId, rightPos with
   | some i, some _ => [i]
   | _, _ => [])

/-- `normalizePath` of ARScreen.tsx lines 70-76. -/
def normalizePath (baseUrl path : String) : String :=
  if baseUrl = "" then
    (if path.startsWith "/" then path else "/" ++ path)
  else
    let cleanPath := if path.startsWith "/" then path.drop 1 else path
    baseUrl ++ "/" ++ cleanPath

/-- `'success' | 'error'`, the value of `feedbackType` when set. -/
inductive FeedbackType
  | success
  | error
deriving DecidableEq, Repr

/-- Externally visible calls the component can make: the three sound
helpers from soundUtils, and the `onNavigate` screen-change callback the
component receives as a prop. -/
inductive Effect
  | playClickSound
  | playSuccessSound
  | playErrorSound
  | navigate (dest : String)
deriving DecidableEq, Repr

/-- The attribute record passed to `ARSceneAFrame.addEntity` in
`spawnAnimals` (ARScreen.tsx lines 347-369). -/
structure EntitySpec where
  geometry : String
  material : String
  position : Vec3
  scale : String
  lookAt : String
  className : String
  dataAnimal : AnimalType
deriving DecidableEq, Repr

/-- Modelled from the spec: the `ARSceneAFrame` component that owns the
scene entities is not under src/ (only its `addEntity`/`removeEntity`
callers are).  Per the spec, a scene entity is "a renderable object placed
in the 3D scene", "created per round, destroyed on round advance"; the
scene is modelled as a list of entities keyed by a fresh numeric id. -/
structure SceneState where
  nextId : Nat
  entities : List (Nat × EntitySpec)
deriving DecidableEq, Repr

/-- Modelled from the spec: `ARSceneAFrame.addEntity` (not under src/)
returns the id of a freshly created scene entity. -/
def addEntity (spec : EntitySpec) (sc : SceneState) : Nat × SceneState :=
  (sc.nextId, { nextId := sc.nextId + 1, entities := sc.entities ++ [(sc.nextId, spec)] })

/-- Modelled from the spec: `ARSceneAFrame.removeEntity` (not under src/)
destroys the scene entity with the given id. -/
def removeEntity (id : Nat) (sc : SceneState) : SceneState :=
  { sc with entities := sc.entities.filter (fun e => e.1 ≠ id) }

/-- The `setTimeout` continuations of ARScreen.tsx that can be pending:
the 2000 ms body of `handleAnimalClick` (lines 435-451) and the 100 ms
spawn body scheduled inside it for the next round (lines 442-447). -/
inductive PendingT
  | clickT
  | spawnT (nextRound : Nat)
deriving DecidableEq, Repr

/-- The state of the ARScreen.tsx component: its `useState` values, its
refs, the scene contents, the pending timeouts (with their millisecond
delays), and the log of effects emitted so far.  `animals` is the
module-level `ANIMALS` binding, threaded through every operation so that
its (non-)mutation is part of the model; `sceneAttached` models
`arSceneRef.current` being non-null. -/
structure GameState where
  animals : List AnimalConfig
  baseUrl : String
  currentRound : Nat
  selectedAnimal : Option AnimalType
  feedbackType : Option FeedbackType
  isAnimating : Bool
  sceneReady : Bool
  sceneAttached : Bool
  scene : SceneState
  leftRef : Option Nat
  rightRef : Option Nat
  correctIdRef : Option Nat
  correctPosRef : Vec3
  pending : List (Nat × PendingT)
  effects : List Effect
deriving Repr

/-- The component's initial state: `currentRound = 0`, no selection, no
feedback, not animating, scene not yet ready, no entities, the default
fallback `correctEntityPosRef` value, nothing pending, nothing emitted. -/
def init (baseUrl : String) : GameState :=
  { animals := ANIMALS
    baseUrl := baseUrl
    currentRound := 0
    selectedAnimal := none
    feedbackType := none
    isAnimating := false
    sceneReady := false
    sceneAttached := true
    scene := { nextId := 0, entities := [] }
    leftRef := none
    rightRef := none
    correctIdRef := none
    correctPosRef := ⟨-(3/2), 0, -10⟩
    pending := []
    effects := [] }

/-- `ANIMALS.find(a => a.name === x)`. -/
def findAnimal (l : List AnimalConfig) (a : AnimalType) : Option AnimalConfig :=
  l.find? (fun c => c.name == a)

/-- `clearAnimals` of ARScreen.tsx lines 187-197: remove the left entity if
its ref and the scene ref are set, likewise the right one, and null the
correct-entity ref unconditionally. -/
def clearAnimals (s : GameState) : GameState :=
  let s1 :=
    match s.leftRef, s.sceneAttached with
    | some l, true => { s with scene := removeEntity l s.scene, leftRef := none }
    | _, _ => s
  let s2 :=
    match s1.rightRef, s1.sceneAttached with
    | some r, true => { s1 with scene := removeEntity r s1.scene, rightRef := none }
    | _, _ => s1
  { s2 with correctIdRef := none }

/-- The attribute record built for one spawned animal
(ARScreen.tsx lines 347-357). -/
def entitySpecFor (baseUrl : String) (a : AnimalConfig) (pos : Vec3) : EntitySpec :=
  { geometry := "primitive: plane"
    material := "src: " ++ normalizePath baseUrl ("assets/images/" ++ a.arImage)
      ++ "; transparent: true; side: double"
    position := pos
    scale := "1 1 1"
    lookAt := "[camera]"
    className := "clickable-animal"
    dataAnimal := a.name }

/-- `spawnAnimals` of ARScreen.tsx lines 310-412.  `correctOnLeft` is the
`Math.random() > 0.5` draw.  Early return when the scene ref is missing or
the scene is not ready; otherwise clear the previous entities, look both
configs up in `ANIMALS`, lay the correct one left or right according to
`correctOnLeft`, add the two entities, and record the refs.  (The `find`
calls carry a `!` non-null assertion in the source; every `AnimalType`
occurs in `ANIMALS`, so the fallback branch is unreachable.) -/
def spawnAnimals (correctAnimal wrongAnimal : AnimalType)
    (correctOnLeft : Bool) (s : GameState) : GameState :=
  if !s.sceneAttached || !s.sceneReady then s else
  let s := clearAnimals s
  match findAnimal s.animals correctAnimal, findAnimal s.animals wrongAnimal with
  | some correctCfg, some wrongCfg =>
    let leftAnimal := if correctOnLeft then correctCfg else wrongCfg
    let rightAnimal := if correctOnLeft then wrongCfg else correctCfg
    let leftPos : Vec3 := ⟨-(3/2), 0, INITIAL_ANIMAL_Z⟩
    let rightPos : Vec3 := ⟨3/2, 0, INITIAL_ANIMAL_Z⟩
    let r1 := addEntity (entitySpecFor s.baseUrl leftAnimal leftPos) s.scene
    let r2 := addEntity (entitySpecFor s.baseUrl rightAnimal rightPos) r1.2
    { s with scene := r2.2
             leftRef := some r1.1
             rightRef := some r2.1
             correctIdRef := some (if correctOnLeft then r1.1 else r2.1)
             correctPosRef := if correctOnLeft then leftPos else rightPos }
  | _, _ => s

/-- The synchronous part of `handleAnimalClick` (ARScreen.tsx lines
415-452): guard on `isAnimating`, play the click sound, set the selection
and feedback flags, play the success or error sound, clear the entities,
and schedule the 2000 ms timeout. -/
def handleAnimalClick (clickedAnimal correctAnimal : AnimalType)
    (s : GameState) : GameState :=
  if s.isAnimating then s else
  let s := { s with isAnimating := true, effects := s.effects ++ [Effect.playClickSound] }
  let isCorrect := clickedAnimal == correctAnimal
  let s := { s with
    selectedAnimal := some clickedAnimal
    feedbackType := some (if isCorrect then FeedbackType.success else FeedbackType.error)
    effects := s.effects ++
      [if isCorrect then Effect.playSuccessSound else Effect.playErrorSound] }
  let s := clearAnimals s
  { s with pending := s.pending ++ [(2000, PendingT.clickT)] }

/-- The body of the 2000 ms timeout in `handleAnimalClick` (ARScreen.tsx
lines 435-451): clear the selection, feedback and animating flags, advance
`currentRound` by one, and if the new round is below `TOTAL_ROUNDS`
schedule the 100 ms spawn for it. -/
def fireClickTimeout (s : GameState) : GameState :=
  let s := { s with selectedAnimal := none, feedbackType := none, isAnimating := false }
  let nextRound := s.currentRound + 1
  let s := { s with currentRound := nextRound }
  if nextRound < TOTAL_ROUNDS then
    { s with pending := s.pending ++ [(100, PendingT.spawnT nextRound)] }
  else s

/-- The body of the 100 ms spawn timeout (ARScreen.tsx lines 442-447):
look up the round's animal, draw a wrong animal from the filtered list
(`wrongIdx` is the `Math.floor(Math.random() * length)` draw, in range for
real executions) and spawn. -/
def fireSpawnTimeout (round wrongIdx : Nat) (correctOnLeft : Bool)
    (s : GameState) : GameState :=
  match s.animals.get? round with
  | some correctCfg =>
    let wrongAnimals := s.animals.filter (fun a => a.name ≠ correctCfg.name)
    match wrongAnimals.get? wrongIdx with
    | some wrongCfg => spawnAnimals correctCfg.name wrongCfg.name correctOnLeft s
    | none => s
  | none => s

/-- `startRound` of ARScreen.tsx lines 458-469: reset the round index to 0
when called past the terminal count, otherwise draw a wrong animal and
spawn the round's pair. -/
def startRound (roundIndex wrongIdx : Nat) (correctOnLeft : Bool)
    (s : GameState) : GameState :=
  if roundIndex ≥ TOTAL_ROUNDS then { s with currentRound := 0 } else
  match s.animals.get? roundIndex with
  | some correctCfg =>
    let wrongAnimals := s.animals.filter (fun a => a.name ≠ correctCfg.name)
    match wrongAnimals.get? wrongIdx with
    | some wrongCfg => spawnAnimals correctCfg.name wrongCfg.name correctOnLeft s
    | none => s
  | none => s

/-- `currentAnimal` (ARScreen.tsx line 517):
`currentRound < TOTAL_ROUNDS ? ANIMALS[currentRound] : null`. -/
def currentAnimal (s : GameState) : Option AnimalConfig :=
  if s.currentRound < TOTAL_ROUNDS then s.animals.get? s.currentRound else none

/-- `topImage` (ARScreen.tsx line 518). -/
def topImage (s : GameState) : String :=
  match currentAnimal s with
  | some c => normalizePath s.baseUrl ("assets/images/" ++ c.topImage)
  | none => ""

/-- The external events driving the ARScreen.tsx component: the scene-ready
callback, the scene-ready effect that starts round 0, a touch resolving to
an animal entity, and the expiry of the earliest pending timeout.  The
`Math.random()` draws a firing timeout may need are carried on the event. -/
inductive Event
  | sceneLoaded
  | sceneInit (wrongIdx : Nat) (correctOnLeft : Bool)
  | touch (a : AnimalType)
  | fire (wrongIdx : Nat) (correctOnLeft : Bool)
deriving Repr

/-- Touch processing (ARScreen.tsx lines 223-297): ignore touches while
animating; compute the round's correct animal as
`currentRound < TOTAL_ROUNDS ? ANIMALS[currentRound] : null` and invoke
`handleAnimalClick` only when it is non-null. -/
def processTouch (a : AnimalType) (s : GameState) : GameState :=
  if s.isAnimating then s else
  if s.currentRound < TOTAL_ROUNDS then
    match s.animals.get? s.currentRound with
    | some cfg => handleAnimalClick a cfg.name s
    | none => s
  else s

/-- One step of the component: dispatch an event against the current
state.  `sceneInit` is the effect of ARScreen.tsx lines 472-515, which
calls `startRound(0)` only when the scene is ready and `currentRound` is
still 0; `fire` pops and runs the earliest pending timeout. -/
def step (s : GameState) : Event → GameState
  | .sceneLoaded => { s with sceneReady := true }
  | .sceneInit wrongIdx correctOnLeft =>
    if s.sceneReady ∧ s.currentRound = 0 then
      startRound 0 wrongIdx correctOnLeft s
    else s
  | .touch a => processTouch a s
  | .fire wrongIdx correctOnLeft =>
    match s.pending with
    | [] => s
    | (_, t) :: rest =>
      let s := { s with pending := rest }
      match t with
      | .clickT => fireClickTimeout s
      | .spawnT n => fireSpawnTimeout n wrongIdx correctOnLeft s

/-- Run a list of events from a state. -/
def run (s : GameState) : List Event → GameState
  | [] => s
  | e :: es => run (step s e) es

/-- Navigation detector for the effect log. -/
def Effect.isNavigate : Effect → Bool
  | .navigate _ => true
  | _ => false

/-- The initial state right after the scene-ready callback fired. -/
def sReady : GameState := { init "" with sceneReady := true }

/-- A state at the terminal round count with no pending timeouts. -/
def sDone : GameState := { init "" with currentRound := TOTAL_ROUNDS }

/-- A complete game: the scene loads, round 0 starts, and each of the five
rounds is selected and its timeouts fire (the last round schedules no
spawn). -/
def fullGame : List Event :=
  [Event.sceneLoaded, Event.sceneInit 0 true,
   Event.touch .gato, Event.fire 0 true, Event.fire 0 true,
   Event.touch .cachorro, Event.fire 0 true, Event.fire 0 true,
   Event.touch .galinha, Event.fire 0 true, Event.fire 0 true,
   Event.touch .vaca, Event.fire 0 true, Event.fire 0 true,
   Event.touch .porco, Event.fire 0 true]

end RA2

namespace RA2.Rev2

/-
The second ARScreen revision in src/unnamed/part_000 (lines 1000-2185)
replaces the single 2000 ms click timeout with a success chain of nested
timeouts (800 ms, then 600 ms, then 600 ms) that animates the top image
and advances the round, and with a single 1700 ms timeout on error that
retries the same round.  Only the click handler and its timers (lines
1462-1537) are modelled; entity bookkeeping is as in the main model.
-/

/-- The `topImageAnim.phase` values of the part_000 second revision. -/
inductive Phase
  | idle
  | showCurrent
  | hideCurrent
  | showNext
deriving DecidableEq, Repr

/-- The `topImageAnim` state of the part_000 second revision. -/
structure TopAnim where
  current : Option AnimalConfig
  next : Option AnimalConfig
  phase : Phase
deriving DecidableEq, Repr

/-- Pending timeouts of the part_000 second revision's click handler:
the three nested success timeouts (each capturing the `logicCurrentRound`
of the click) and the single error timeout. -/
inductive PendingR
  | successP1 (logicRound : Nat)
  | successP2 (logicRound : Nat)
  | successP3 (logicRound : Nat)
  | errClear
deriving DecidableEq, Repr

/-- State of the part_000 second revision: its `useState` values, the
`topImageAnim` record, the `pendingARImages`/`canDisplayAnimals` spawn
request, pending timeouts with their delays, the emitted effects, and a
clock `now` (ms since the click) advanced by each fired timeout. -/
structure R2State where
  animals : List AnimalConfig
  currentRound : Nat
  selectedAnimal : Option AnimalType
  feedbackType : Option FeedbackType
  isAnimating : Bool
  feedbackMounted : Bool
  topAnim : TopAnim
  pendingCorrect : Option AnimalType
  pendingWrong : Option AnimalType
  canDisplayAnimals : Bool
  pending : List (Nat × PendingR)
  effects : List Effect
  now : Nat
deriving Repr

/-- An idle second-revision state at a given round: nothing selected, no
feedback, not animating, nothing pending, clock zero. -/
def r2Idle (round : Nat) : R2State :=
  { animals := ANIMALS
    currentRound := round
    selectedAnimal := none
    feedbackType := none
    isAnimating := false
    feedbackMounted := false
    topAnim := { current := ANIMALS.get? round, next := none, phase := .showCurrent }
    pendingCorrect := none
    pendingWrong := none
    canDisplayAnimals := true
    pending := []
    effects := []
    now := 0 }

/-- The synchronous part of `handleAnimalClick` in the part_000 second
revision (lines 1462-1537): guard on `isAnimating`, play the click sound,
read the logical round from `currentRoundRef`, derive the correct animal
(null past the terminal count), set the selection and feedback flags, and
schedule either the 800 ms head of the success chain or the 1700 ms error
timeout. -/
def r2Click (clicked : AnimalType) (s : R2State) : R2State :=
  if s.isAnimating then s else
  let s := { s with isAnimating := true, effects := s.effects ++ [Effect.playClickSound] }
  let logicRound := s.currentRound
  let correctAnimal : Option AnimalType :=
    if logicRound < TOTAL_ROUNDS then (s.animals.get? logicRound).map (fun c => c.name)
    else none
  let isCorrect := correctAnimal = some clicked
  let s := { s with
    selectedAnimal := some clicked
    feedbackType := some (if isCorrect then FeedbackType.success else FeedbackType.error)
    feedbackMounted := false }
  if isCorrect then
    { s with effects := s.effects ++ [Effect.playSuccessSound]
             pending := s.pending ++ [(800, PendingR.successP1 logicRound)] }
  else
    { s with effects := s.effects ++ [Effect.playErrorSound]
             pending := s.pending ++ [(1700, PendingR.errClear)] }

/-- Fire the earliest pending timeout of the part_000 second revision.
`successP1` hides the current top image and schedules the next 600 ms
step; `successP2` shows the next top image and schedules the final 600 ms
step; `successP3` resets the top-image animation, advances the round,
clears the selection/feedback/animating flags and requests the next spawn
when the new round is below `TOTAL_ROUNDS`; `errClear` (1700 ms) clears
the flags and requests a respawn of the same round.  `wrongIdx` is the
`Math.random()` wrong-animal draw. -/
def r2Fire (wrongIdx : Nat) (s : R2State) : R2State :=
  match s.pending with
  | [] => s
  | (d, t) :: rest =>
    let s := { s with pending := rest, now := s.now + d }
    match t with
    | .successP1 l =>
      { s with topAnim := { s.topAnim with phase := .hideCurrent }
               pending := s.pending ++ [(600, PendingR.successP2 l)] }
    | .successP2 l =>
      { s with topAnim := { s.topAnim with next := s.animals.get? (l + 1), phase := .showNext }
               pending := s.pending ++ [(600, PendingR.successP3 l)] }
    | .successP3 l =>
      let s := { s with
        topAnim := { current := s.animals.get? (l + 1), next := none,
                     phase := if l + 1 < TOTAL_ROUNDS then .showCurrent else .idle }
        currentRound := s.currentRound + 1
        selectedAnimal := none
        feedbackType := none
        isAnimating := false
        feedbackMounted := false }
      if l + 1 < TOTAL_ROUNDS then
        match s.animals.get? (l + 1) with
        | some nextAnimal =>
          let wrongAnimals := s.animals.filter (fun a => a.name ≠ nextAnimal.name)
          match wrongAnimals.get? wrongIdx with
          | some w =>
            { s with pendingCorrect := some nextAnimal.name
                     pendingWrong := some w.name
                     canDisplayAnimals := false }
          | none => s
        | none => s
      else s
    | .errClear =>
      let s := { s with
        selectedAnimal := none
        feedbackType := none
        isAnimating := false
        feedbackMounted := false }
      if s.currentRound < TOTAL_ROUNDS then
        match s.animals.get? s.currentRound with
        | some curr =>
          let wrongAnimals := s.animals.filter (fun a => a.name ≠ curr.name)
          match wrongAnimals.get? wrongIdx with
          | some w =>
            { s with pendingCorrect := some curr.name
                     pendingWrong := some w.name
                     canDisplayAnimals := false }
          | none => s
        | none => s
      else s

end RA2.Rev2

namespace RA2

/-- `clearAnimals` touches only the scene contents and the three entity
refs; the animals list is preserved. -/
theorem clearAnimals_animals (s : GameState) :
    (clearAnimals s).animals = s.animals := by
  unfold clearAnimals
  rcases hl : s.leftRef <;> rcases ha : s.sceneAttached <;>
    rcases hr : s.rightRef <;> simp_all

/-- `clearAnimals` preserves the base url. -/
theorem clearAnimals_baseUrl (s : GameState) :
    (clearAnimals s).baseUrl = s.baseUrl := by
  unfold clearAnimals
  rcases hl : s.leftRef <;> rcases ha : s.sceneAttached <;>
    rcases hr : s.rightRef <;> simp_all

/-- `clearAnimals` preserves the round index. -/
theorem clearAnimals_currentRound (s : GameState) :
    (clearAnimals s).currentRound = s.currentRound := by
  unfold clearAnimals
  rcases hl : s.leftRef <;> rcases ha : s.sceneAttached <;>
    rcases hr : s.rightRef <;> simp_all

/-- `clearAnimals` preserves the selected animal. -/
theorem clearAnimals_selectedAnimal (s : GameState) :
    (clearAnimals s).selectedAnimal = s.selectedAnimal := by
  unfold clearAnimals
  rcases hl : s.leftRef <;> rcases ha : s.sceneAttached <;>
    rcases hr : s.rightRef <;> simp_all

/-- `clearAnimals` preserves the feedback flag. -/
theorem clearAnimals_feedbackType (s : GameState) :
    (clearAnimals s).feedbackType = s.feedbackType := by
  unfold clearAnimals
  rcases hl : s.leftRef <;> rcases ha : s.sceneAttached <;>
    rcases hr : s.rightRef <;> simp_all

/-- `clearAnimals` preserves the animating flag. -/
theorem clearAnimals_isAnimating (s : GameState) :
    (clearAnimals s).isAnimating = s.isAnimating := by
  unfold clearAnimals
  rcases hl : s.leftRef <;> rcases ha : s.sceneAttached <;>
    rcases hr : s.rightRef <;> simp_all

/-- `clearAnimals` preserves the scene-ready flag. -/
theorem clearAnimals_sceneReady (s : GameState) :
    (clearAnimals s).sceneReady = s.sceneReady := by
  unfold clearAnimals
  rcases hl : s.leftRef <;> rcases ha : s.sceneAttached <;>
    rcases hr : s.rightRef <;> simp_all

/-- `clearAnimals` preserves the scene-attached flag. -/
theorem clearAnimals_sceneAttached (s : GameState) :
    (clearAnimals s).sceneAttached = s.sceneAttached := by
  unfold clearAnimals
  rcases hl : s.leftRef <;> rcases ha : s.sceneAttached <;>
    rcases hr : s.rightRef <;> simp_all

/-- `clearAnimals` preserves the pending-timeout queue. -/
theorem clearAnimals_pending (s : GameState) :
    (clearAnimals s).pending = s.pending := by
  unfold clearAnimals
  rcases hl : s.leftRef <;> rcases ha : s.sceneAttached <;>
    rcases hr : s.rightRef <;> simp_all

/-- `clearAnimals` preserves the effect log. -/
theorem clearAnimals_effects (s : GameState) :
    (clearAnimals s).effects = s.effects := by
  unfold clearAnimals
  rcases hl : s.leftRef <;> rcases ha : s.sceneAttached <;>
    rcases hr : s.rightRef <;> simp_all

/-- `clearAnimals` nulls the correct-entity ref unconditionally, and the
left and right refs whenever the scene ref is attached. -/
theorem clearAnimals_refs (s : GameState) (hatt : s.sceneAttached = true) :
    (clearAnimals s).leftRef = none ∧ (clearAnimals s).rightRef = none ∧
    (clearAnimals s).correctIdRef = none := by
  unfold clearAnimals
  rcases hl : s.leftRef <;> rcases hr : s.rightRef <;> simp_all

/-- C1: when a selection is processed at round `r < TOTAL_ROUNDS`, the
correct animal is the name of the `r`-th entry of `ANIMALS`; the resulting
state carries success feedback and the success sound was played exactly
when the clicked animal equals it, and error feedback with the error sound
otherwise (a click sound plays either way). -/
theorem selection_feedback (s : GameState) (a : AnimalType) (cfg : AnimalConfig)
    (hAnim : s.isAnimating = false) (hr : s.currentRound < TOTAL_ROUNDS)
    (hA : s.animals = ANIMALS) (hc : ANIMALS.get? s.currentRound = some cfg) :
    ((processTouch a s).feedbackType = some FeedbackType.success ↔ a = cfg.name) ∧
    ((processTouch a s).feedbackType = some FeedbackType.error ↔ a ≠ cfg.name) ∧
    ((processTouch a s).effects =
        s.effects ++ [Effect.playClickSound, Effect.playSuccessSound] ↔ a = cfg.name) ∧
    ((processTouch a s).effects =
        s.effects ++ [Effect.playClickSound, Effect.playErrorSound] ↔ a ≠ cfg.name) := by
  have hca : s.animals[s.currentRound]? = some cfg := by
    rw [hA, ← List.get?_eq_getElem?]; exact hc
  by_cases hcase : a = cfg.name <;>
    simp [processTouch, handleAnimalClick, hAnim, hr, hca, hcase,
      clearAnimals_feedbackType, clearAnimals_effects]

/-- Witness for `selection_feedback`: at the initial state the round is 0,
the correct animal is `gato`, and clicking `gato` yields success feedback
with the success sound. -/
theorem selection_feedback_witness :
    ((processTouch AnimalType.gato (init "")).feedbackType =
        some FeedbackType.success ↔ AnimalType.gato = AnimalType.gato) ∧
    ((processTouch AnimalType.gato (init "")).feedbackType =
        some FeedbackType.error ↔ AnimalType.gato ≠ AnimalType.gato) ∧
    ((processTouch AnimalType.gato (init "")).effects =
        (init "").effects ++ [Effect.playClickSound, Effect.playSuccessSound] ↔
      AnimalType.gato = AnimalType.gato) ∧
    ((processTouch AnimalType.gato (init "")).effects =
        (init "").effects ++ [Effect.playClickSound, Effect.playErrorSound] ↔
      AnimalType.gato ≠ AnimalType.gato) :=
  selection_feedback (init "") AnimalType.gato
    { name := .gato, topImage := "gatotop.png", arImage := "Gato.png" }
    rfl (by decide) rfl rfl

/-- `ANIMALS.find(a => a.name === x)` recovers any member of `ANIMALS`
from its name (the five names are distinct). -/
theorem findAnimal_mem : ∀ w ∈ ANIMALS, findAnimal ANIMALS w.name = some w := by
  decide

/-- Explicit form of `spawnAnimals` when the scene is attached and ready
and both config lookups succeed: the previous entities are cleared, the two
new entities are appended with fresh ids, and the refs point at them. -/
theorem spawnAnimals_eq (s : GameState) (c wn : AnimalType)
    (cfg w : AnimalConfig) (col : Bool)
    (hatt : s.sceneAttached = true) (hready : s.sceneReady = true)
    (hfc : findAnimal (clearAnimals s).animals c = some cfg)
    (hfw : findAnimal (clearAnimals s).animals wn = some w) :
    spawnAnimals c wn col s =
      { clearAnimals s with
        scene :=
          { nextId := (clearAnimals s).scene.nextId + 2
            entities := (clearAnimals s).scene.entities ++
              [((clearAnimals s).scene.nextId,
                 entitySpecFor (clearAnimals s).baseUrl (if col then cfg else w)
                   ⟨-(3/2), 0, INITIAL_ANIMAL_Z⟩),
               ((clearAnimals s).scene.nextId + 1,
                 entitySpecFor (clearAnimals s).baseUrl (if col then w else cfg)
                   ⟨3/2, 0, INITIAL_ANIMAL_Z⟩)] }
        leftRef := some (clearAnimals s).scene.nextId
        rightRef := some ((clearAnimals s).scene.nextId + 1)
        correctIdRef := some (if col then (clearAnimals s).scene.nextId
          else (clearAnimals s).scene.nextId + 1)
        correctPosRef := if col then ⟨-(3/2), 0, INITIAL_ANIMAL_Z⟩
          else ⟨3/2, 0, INITIAL_ANIMAL_Z⟩ } := by
  unfold spawnAnimals
  simp only [hatt, hready, Bool.not_true, Bool.or_self, Bool.false_eq_true,
    if_false, hfc, hfw, addEntity]
  simp [List.append_assoc]

/-- C2: a round spawn appends exactly two entities to the (cleared) scene:
with `i` the next fresh id, the left entity at id `i` and the right at
`i + 1`; the `Math.random()` draw decides which of the two displays the
round's correct animal and which the drawn wrong animal (whose name
differs from the correct one); for either draw the left and right entities
get the same positions, geometry and interactive class, and the
correct-entity ref points at the entity displaying the correct animal. -/
theorem spawn_creates_two_entities (s : GameState) (r wrongIdx : Nat)
    (col : Bool) (cfg w : AnimalConfig)
    (hA : s.animals = ANIMALS) (hready : s.sceneReady = true)
    (hatt : s.sceneAttached = true) (hr : r < TOTAL_ROUNDS)
    (hc : ANIMALS.get? r = some cfg)
    (hw : (ANIMALS.filter (fun a => a.name ≠ cfg.name)).get? wrongIdx = some w) :
    let i := (clearAnimals s).scene.nextId
    let leftSpec := entitySpecFor s.baseUrl (if col then cfg else w)
      ⟨-(3/2), 0, INITIAL_ANIMAL_Z⟩
    let rightSpec := entitySpecFor s.baseUrl (if col then w else cfg)
      ⟨3/2, 0, INITIAL_ANIMAL_Z⟩
    (startRound r wrongIdx col s).scene.entities =
      (clearAnimals s).scene.entities ++ [(i, leftSpec), (i + 1, rightSpec)] ∧
    w.name ≠ cfg.name ∧
    ((leftSpec.dataAnimal = cfg.name ∧ rightSpec.dataAnimal = w.name) ∨
      (leftSpec.dataAnimal = w.name ∧ rightSpec.dataAnimal = cfg.name)) ∧
    leftSpec.position = ⟨-(3/2), 0, INITIAL_ANIMAL_Z⟩ ∧
    rightSpec.position = ⟨3/2, 0, INITIAL_ANIMAL_Z⟩ ∧
    leftSpec.geometry = "primitive: plane" ∧
    rightSpec.geometry = "primitive: plane" ∧
    leftSpec.className = "clickable-animal" ∧
    rightSpec.className = "clickable-animal" ∧
    (startRound r wrongIdx col s).correctIdRef = some (if col then i else i + 1) ∧
    (if col then leftSpec else rightSpec).dataAnimal = cfg.name := by
  intro i leftSpec rightSpec
  have hwmem : w ∈ ANIMALS.filter (fun a => a.name ≠ cfg.name) := List.get?_mem hw
  have hwA : w ∈ ANIMALS := (List.mem_filter.mp hwmem).1
  have hwne : w.name ≠ cfg.name := by
    have := (List.mem_filter.mp hwmem).2
    exact of_decide_eq_true this
  have hcmem : cfg ∈ ANIMALS := List.get?_mem hc
  have hcA : (clearAnimals s).animals = ANIMALS := by rw [clearAnimals_animals, hA]
  have hfc : findAnimal (clearAnimals s).animals cfg.name = some cfg := by
    rw [hcA]; exact findAnimal_mem cfg hcmem
  have hfw : findAnimal (clearAnimals s).animals w.name = some w := by
    rw [hcA]; exact findAnimal_mem w hwA
  have hnr : ¬ r ≥ TOTAL_ROUNDS := by omega
  have hc' : s.animals.get? r = some cfg := by rw [hA]; exact hc
  have hw' : (s.animals.filter (fun a => a.name ≠ cfg.name)).get? wrongIdx = some w := by
    rw [hA]; exact hw
  have hsr : startRound r wrongIdx col s = spawnAnimals cfg.name w.name col s := by
    unfold startRound
    rw [if_neg hnr]
    simp only [hc', hw']
  have hsp := spawnAnimals_eq s cfg.name w.name cfg w col hatt hready hfc hfw
  have hcBase : (clearAnimals s).baseUrl = s.baseUrl := clearAnimals_baseUrl s
  refine ⟨?_, hwne, ?_, rfl, rfl, rfl, rfl, rfl, rfl, ?_, ?_⟩
  · rw [hsr, hsp]
    simp [leftSpec, rightSpec, i, hcBase]
  · cases col <;> simp [leftSpec, rightSpec, entitySpecFor]
  · rw [hsr, hsp]
  · cases col <;> simp [leftSpec, rightSpec, entitySpecFor]

/-- Witness for `spawn_creates_two_entities`: starting round 0 from the
scene-ready initial state with the correct animal on the left draws
`gato` (correct) and `cachorro` (wrong). -/
theorem spawn_creates_two_entities_witness :
    (startRound 0 0 true sReady).scene.entities =
      (clearAnimals sReady).scene.entities ++
        [((clearAnimals sReady).scene.nextId,
           entitySpecFor sReady.baseUrl
             { name := .gato, topImage := "gatotop.png", arImage := "Gato.png" }
             ⟨-(3/2), 0, INITIAL_ANIMAL_Z⟩),
         ((clearAnimals sReady).scene.nextId + 1,
           entitySpecFor sReady.baseUrl
             { name := .cachorro, topImage := "cachorrotop.png", arImage := "Cachorro.png" }
             ⟨3/2, 0, INITIAL_ANIMAL_Z⟩)] ∧
    AnimalType.cachorro ≠ AnimalType.gato ∧
    ((AnimalType.gato = AnimalType.gato ∧ AnimalType.cachorro = AnimalType.cachorro) ∨
      (AnimalType.gato = AnimalType.cachorro ∧ AnimalType.cachorro = AnimalType.gato)) ∧
    (entitySpecFor sReady.baseUrl
        { name := .gato, topImage := "gatotop.png", arImage := "Gato.png" }
        ⟨-(3/2), 0, INITIAL_ANIMAL_Z⟩).position = ⟨-(3/2), 0, INITIAL_ANIMAL_Z⟩ ∧
    (entitySpecFor sReady.baseUrl
        { name := .cachorro, topImage := "cachorrotop.png", arImage := "Cachorro.png" }
        ⟨3/2, 0, INITIAL_ANIMAL_Z⟩).position = ⟨3/2, 0, INITIAL_ANIMAL_Z⟩ ∧
    (entitySpecFor sReady.baseUrl
        { name := .gato, topImage := "gatotop.png", arImage := "Gato.png" }
        ⟨-(3/2), 0, INITIAL_ANIMAL_Z⟩).geometry = "primitive: plane" ∧
    (entitySpecFor sReady.baseUrl
        { name := .cachorro, topImage := "cachorrotop.png", arImage := "Cachorro.png" }
        ⟨3/2, 0, INITIAL_ANIMAL_Z⟩).geometry = "primitive: plane" ∧
    (entitySpecFor sReady.baseUrl
        { name := .gato, topImage := "gatotop.png", arImage := "Gato.png" }
        ⟨-(3/2), 0, INITIAL_ANIMAL_Z⟩).className = "clickable-animal" ∧
    (entitySpecFor sReady.baseUrl
        { name := .cachorro, topImage := "cachorrotop.png", arImage := "Cachorro.png" }
        ⟨3/2, 0, INITIAL_ANIMAL_Z⟩).className = "clickable-animal" ∧
    (startRound 0 0 true sReady).correctIdRef =
      some (clearAnimals sReady).scene.nextId ∧
    (entitySpecFor sReady.baseUrl
        { name := .gato, topImage := "gatotop.png", arImage := "Gato.png" }
        ⟨-(3/2), 0, INITIAL_ANIMAL_Z⟩).dataAnimal = AnimalType.gato :=
  spawn_creates_two_entities sReady 0 0 true
    { name := .gato, topImage := "gatotop.png", arImage := "Gato.png" }
    { name := .cachorro, topImage := "cachorrotop.png", arImage := "Cachorro.png" }
    rfl rfl rfl (by decide) rfl (by decide)

/-- After `clearAnimals`, no entity with the old left entity id remains in
the scene. -/
theorem clearAnimals_removes_left (s : GameState) (i : Nat)
    (hatt : s.sceneAttached = true) (hl : s.leftRef = some i) :
    ∀ e ∈ (clearAnimals s).scene.entities, e.1 ≠ i := by
  unfold clearAnimals
  rcases hr : s.rightRef <;> simp_all [removeEntity]

/-- After `clearAnimals`, no entity with the old right entity id remains in
the scene. -/
theorem clearAnimals_removes_right (s : GameState) (i : Nat)
    (hatt : s.sceneAttached = true) (hl : s.rightRef = some i) :
    ∀ e ∈ (clearAnimals s).scene.entities, e.1 ≠ i := by
  unfold clearAnimals
  rcases hr : s.leftRef <;> simp_all [removeEntity]

/-- A processed click nulls all three entity refs (it runs `clearAnimals`
synchronously). -/
theorem handleAnimalClick_refs (a c : AnimalType) (s : GameState)
    (hAnim : s.isAnimating = false) (hatt : s.sceneAttached = true) :
    (handleAnimalClick a c s).leftRef = none ∧
    (handleAnimalClick a c s).rightRef = none ∧
    (handleAnimalClick a c s).correctIdRef = none := by
  simp only [handleAnimalClick, hAnim, Bool.false_eq_true, if_false]
  exact clearAnimals_refs _ hatt

/-- Every name has a config in `ANIMALS`. -/
theorem findAnimal_total : ∀ x : AnimalType, ∃ cfg, findAnimal ANIMALS x = some cfg := by
  intro x
  cases x <;> exact ⟨_, rfl⟩

/-- C6: with the scene ref attached, `clearAnimals` nulls the left, right
and correct-entity refs and removes both spawned entities from the scene;
a processed selection (correct or incorrect) nulls all three refs; and
every spawn clears the previous entities before appending its two new
ones — so no scene entity outlives its round. -/
theorem no_entity_outlives_round (s : GameState) (a : AnimalType)
    (cfg : AnimalConfig)
    (hatt : s.sceneAttached = true) (hready : s.sceneReady = true)
    (hAnim : s.isAnimating = false) (hr : s.currentRound < TOTAL_ROUNDS)
    (hA : s.animals = ANIMALS) (hc : ANIMALS.get? s.currentRound = some cfg) :
    ((clearAnimals s).leftRef = none ∧ (clearAnimals s).rightRef = none ∧
      (clearAnimals s).correctIdRef = none) ∧
    (∀ i, s.leftRef = some i → ∀ e ∈ (clearAnimals s).scene.entities, e.1 ≠ i) ∧
    (∀ i, s.rightRef = some i → ∀ e ∈ (clearAnimals s).scene.entities, e.1 ≠ i) ∧
    ((processTouch a s).leftRef = none ∧ (processTouch a s).rightRef = none ∧
      (processTouch a s).correctIdRef = none) ∧
    (∀ c w col, ∃ lSpec rSpec,
      (spawnAnimals c w col s).scene.entities =
        (clearAnimals s).scene.entities ++
          [((clearAnimals s).scene.nextId, lSpec),
           ((clearAnimals s).scene.nextId + 1, rSpec)]) := by
  have hca : s.animals[s.currentRound]? = some cfg := by
    rw [hA, ← List.get?_eq_getElem?]; exact hc
  refine ⟨clearAnimals_refs s hatt, ?_, ?_, ?_, ?_⟩
  · exact fun i hi => clearAnimals_removes_left s i hatt hi
  · exact fun i hi => clearAnimals_removes_right s i hatt hi
  · have hpt : processTouch a s = handleAnimalClick a cfg.name s := by
      simp [processTouch, hAnim, hr, hca]
    rw [hpt]
    exact handleAnimalClick_refs a cfg.name s hAnim hatt
  · intro c w col
    obtain ⟨ccfg, hfc⟩ := findAnimal_total c
    obtain ⟨wcfg, hfw⟩ := findAnimal_total w
    have hcA : (clearAnimals s).animals = ANIMALS := by rw [clearAnimals_animals, hA]
    have hfc' : findAnimal (clearAnimals s).animals c = some ccfg := by rw [hcA]; exact hfc
    have hfw' : findAnimal (clearAnimals s).animals w = some wcfg := by rw [hcA]; exact hfw
    exact ⟨entitySpecFor (clearAnimals s).baseUrl (if col then ccfg else wcfg)
        ⟨-(3/2), 0, INITIAL_ANIMAL_Z⟩,
      entitySpecFor (clearAnimals s).baseUrl (if col then wcfg else ccfg)
        ⟨3/2, 0, INITIAL_ANIMAL_Z⟩,
      by rw [spawnAnimals_eq s c w ccfg wcfg col hatt hready hfc' hfw']⟩

/-- Witness for `no_entity_outlives_round` at the scene-ready initial
state, clicking `gato` at round 0. -/
theorem no_entity_outlives_round_witness :
    ((clearAnimals sReady).leftRef = none ∧ (clearAnimals sReady).rightRef = none ∧
      (clearAnimals sReady).correctIdRef = none) ∧
    (∀ i, sReady.leftRef = some i →
      ∀ e ∈ (clearAnimals sReady).scene.entities, e.1 ≠ i) ∧
    (∀ i, sReady.rightRef = some i →
      ∀ e ∈ (clearAnimals sReady).scene.entities, e.1 ≠ i) ∧
    ((processTouch AnimalType.gato sReady).leftRef = none ∧
      (processTouch AnimalType.gato sReady).rightRef = none ∧
      (processTouch AnimalType.gato sReady).correctIdRef = none) ∧
    (∀ c w col, ∃ lSpec rSpec,
      (spawnAnimals c w col sReady).scene.entities =
        (clearAnimals sReady).scene.entities ++
          [((clearAnimals sReady).scene.nextId, lSpec),
           ((clearAnimals sReady).scene.nextId + 1, rSpec)]) :=
  no_entity_outlives_round sReady AnimalType.gato
    { name := .gato, topImage := "gatotop.png", arImage := "Gato.png" }
    rfl rfl rfl (by decide) rfl rfl

/-- `spawnAnimals` never writes the animals list. -/
theorem spawnAnimals_animals (c w : AnimalType) (col : Bool) (s : GameState) :
    (spawnAnimals c w col s).animals = s.animals := by
  unfold spawnAnimals
  split
  · rfl
  · dsimp only
    split <;> (try split) <;> simp [clearAnimals_animals]

/-- `handleAnimalClick` never writes the animals list. -/
theorem handleAnimalClick_animals (a c : AnimalType) (s : GameState) :
    (handleAnimalClick a c s).animals = s.animals := by
  unfold handleAnimalClick
  split
  · rfl
  · simp [clearAnimals_animals]

/-- The 2000 ms click-timeout body never writes the animals list. -/
theorem fireClickTimeout_animals (s : GameState) :
    (fireClickTimeout s).animals = s.animals := by
  unfold fireClickTimeout
  dsimp only
  split <;> rfl

/-- The 100 ms spawn-timeout body never writes the animals list. -/
theorem fireSpawnTimeout_animals (r wi : Nat) (col : Bool) (s : GameState) :
    (fireSpawnTimeout r wi col s).animals = s.animals := by
  unfold fireSpawnTimeout
  split
  · dsimp only
    split
    · simp [spawnAnimals_animals]
    · rfl
  · rfl

/-- `startRound` never writes the animals list. -/
theorem startRound_animals (r wi : Nat) (col : Bool) (s : GameState) :
    (startRound r wi col s).animals = s.animals := by
  unfold startRound
  split
  · rfl
  · split
    · dsimp only
      split
      · simp [spawnAnimals_animals]
      · rfl
    · rfl

/-- Touch processing never writes the animals list. -/
theorem processTouch_animals (a : AnimalType) (s : GameState) :
    (processTouch a s).animals = s.animals := by
  unfold processTouch
  split
  · rfl
  · split
    · split
      · simp [handleAnimalClick_animals]
      · rfl
    · rfl

/-- No event changes the animals list. -/
theorem step_animals (s : GameState) (e : Event) :
    (step s e).animals = s.animals := by
  cases e with
  | sceneLoaded => rfl
  | sceneInit wi col =>
    simp only [step]
    split
    · simp [startRound_animals]
    · rfl
  | touch a => exact processTouch_animals a s
  | fire wi col =>
    simp only [step]
    rcases hp : s.pending with _ | ⟨⟨d, t⟩, rest⟩
    · rfl
    · dsimp only
      cases t
      · simp [fireClickTimeout_animals]
      · simp [fireSpawnTimeout_animals]

/-- No event trace changes the animals list. -/
theorem run_animals (evs : List Event) : ∀ s : GameState,
    (run s evs).animals = s.animals := by
  induction evs with
  | nil => intro s; rfl
  | cons e es ih => intro s; rw [run, ih, step_animals]

/-- C7: the fixed `ANIMALS` list is never mutated: spawning, selection
handling and round advancement all preserve the threaded animals list, and
along every event trace from the initial state it stays equal to `ANIMALS`
(wrong-animal candidates are built by `List.filter`, which copies). -/
theorem animals_never_mutated :
    (∀ c w col s, (spawnAnimals c w col s).animals = s.animals) ∧
    (∀ a c s, (handleAnimalClick a c s).animals = s.animals) ∧
    (∀ s, (fireClickTimeout s).animals = s.animals) ∧
    (∀ r wi col s, (startRound r wi col s).animals = s.animals) ∧
    (∀ s e, (step s e).animals = s.animals) ∧
    (∀ b evs, (run (init b) evs).animals = ANIMALS) :=
  ⟨spawnAnimals_animals, handleAnimalClick_animals, fireClickTimeout_animals,
   startRound_animals, fun s e => step_animals s e,
   fun b evs => run_animals evs (init b)⟩

/-- Field-level description of a processed click: round unchanged, click
plus outcome sound emitted, selection and feedback flags set, animating
flag raised, and exactly one 2000 ms timeout appended. -/
theorem handleAnimalClick_state (a c : AnimalType) (s : GameState)
    (hAnim : s.isAnimating = false) :
    (handleAnimalClick a c s).currentRound = s.currentRound ∧
    (handleAnimalClick a c s).pending = s.pending ++ [(2000, PendingT.clickT)] ∧
    (handleAnimalClick a c s).selectedAnimal = some a ∧
    (handleAnimalClick a c s).isAnimating = true ∧
    (handleAnimalClick a c s).feedbackType =
      some (if a == c then FeedbackType.success else FeedbackType.error) ∧
    (handleAnimalClick a c s).animals = s.animals ∧
    (handleAnimalClick a c s).sceneReady = s.sceneReady ∧
    (handleAnimalClick a c s).sceneAttached = s.sceneAttached := by
  unfold handleAnimalClick
  simp [hAnim, clearAnimals_currentRound, clearAnimals_pending,
    clearAnimals_selectedAnimal, clearAnimals_isAnimating,
    clearAnimals_feedbackType, clearAnimals_animals, clearAnimals_sceneReady,
    clearAnimals_sceneAttached]

/-- Field-level description of the 2000 ms click-timeout body: the flags
are cleared, the round advances by exactly 1, and the 100 ms spawn timeout
is appended exactly when the new round is below `TOTAL_ROUNDS`. -/
theorem fireClickTimeout_state (s : GameState) :
    (fireClickTimeout s).currentRound = s.currentRound + 1 ∧
    (fireClickTimeout s).selectedAnimal = none ∧
    (fireClickTimeout s).feedbackType = none ∧
    (fireClickTimeout s).isAnimating = false ∧
    (fireClickTimeout s).pending = s.pending ++
      (if s.currentRound + 1 < TOTAL_ROUNDS
        then [(100, PendingT.spawnT (s.currentRound + 1))] else []) := by
  unfold fireClickTimeout
  dsimp only
  split <;> simp_all

/-- Under the touch guards, touch processing is exactly a click with the
round's animal as the correct one. -/
theorem processTouch_eq (s : GameState) (a : AnimalType) (cfg : AnimalConfig)
    (hAnim : s.isAnimating = false) (hr : s.currentRound < TOTAL_ROUNDS)
    (hc : s.animals.get? s.currentRound = some cfg) :
    processTouch a s = handleAnimalClick a cfg.name s := by
  have hca : s.animals[s.currentRound]? = some cfg := by
    rw [← List.get?_eq_getElem?]; exact hc
  simp [processTouch, hAnim, hr, hca]

/-- `handleAnimalClick` never changes the round index. -/
theorem handleAnimalClick_currentRound (a c : AnimalType) (s : GameState) :
    (handleAnimalClick a c s).currentRound = s.currentRound := by
  unfold handleAnimalClick
  split
  · rfl
  · simp [clearAnimals_currentRound]

/-- `spawnAnimals` never changes the round index. -/
theorem spawnAnimals_currentRound (c w : AnimalType) (col : Bool) (s : GameState) :
    (spawnAnimals c w col s).currentRound = s.currentRound := by
  unfold spawnAnimals
  split
  · rfl
  · dsimp only
    split <;> (try split) <;> simp [clearAnimals_currentRound]

/-- The 100 ms spawn-timeout body never changes the round index. -/
theorem fireSpawnTimeout_currentRound (r wi : Nat) (col : Bool) (s : GameState) :
    (fireSpawnTimeout r wi col s).currentRound = s.currentRound := by
  unfold fireSpawnTimeout
  split
  · dsimp only
    split
    · simp [spawnAnimals_currentRound]
    · rfl
  · rfl

/-- `startRound 0` never changes the round index. -/
theorem startRound_zero_currentRound (wi : Nat) (col : Bool) (s : GameState) :
    (startRound 0 wi col s).currentRound = s.currentRound := by
  unfold startRound
  rw [if_neg (by norm_num [TOTAL_ROUNDS])]
  split
  · dsimp only
    split
    · simp [spawnAnimals_currentRound]
    · rfl
  · rfl

/-- Touch processing never changes the round index. -/
theorem processTouch_currentRound (a : AnimalType) (s : GameState) :
    (processTouch a s).currentRound = s.currentRound := by
  unfold processTouch
  split
  · rfl
  · split
    · split
      · simp [handleAnimalClick_currentRound]
      · rfl
    · rfl

/-- The round index never decreases across any event. -/
theorem step_round_mono (s : GameState) (e : Event) :
    s.currentRound ≤ (step s e).currentRound := by
  cases e with
  | sceneLoaded => exact le_rfl
  | sceneInit wi col =>
    simp only [step]
    split
    · rw [startRound_zero_currentRound]
    · exact le_rfl
  | touch a =>
    simp only [step]
    rw [processTouch_currentRound]
  | fire wi col =>
    simp only [step]
    rcases hp : s.pending with _ | ⟨⟨d, t⟩, rest⟩
    · exact le_rfl
    · dsimp only
      cases t
      · rw [(fireClickTimeout_state _).1]
        exact Nat.le_succ_of_le le_rfl
      · rw [fireSpawnTimeout_currentRound]

/-- A click appends only sound effects: the navigation calls in the log
are unchanged. -/
theorem handleAnimalClick_nav (a c : AnimalType) (s : GameState) :
    (handleAnimalClick a c s).effects.filter Effect.isNavigate =
      s.effects.filter Effect.isNavigate := by
  unfold handleAnimalClick
  split
  · rfl
  · cases h : (a == c) <;>
      simp [h, clearAnimals_effects, Effect.isNavigate, List.filter_append]

/-- `spawnAnimals` never writes the effect log. -/
theorem spawnAnimals_effects (c w : AnimalType) (col : Bool) (s : GameState) :
    (spawnAnimals c w col s).effects = s.effects := by
  unfold spawnAnimals
  split
  · rfl
  · dsimp only
    split <;> (try split) <;> simp [clearAnimals_effects]

/-- The 2000 ms click-timeout body never writes the effect log. -/
theorem fireClickTimeout_effects (s : GameState) :
    (fireClickTimeout s).effects = s.effects := by
  unfold fireClickTimeout
  dsimp only
  split <;> rfl

/-- The 100 ms spawn-timeout body never writes the effect log. -/
theorem fireSpawnTimeout_effects (r wi : Nat) (col : Bool) (s : GameState) :
    (fireSpawnTimeout r wi col s).effects = s.effects := by
  unfold fireSpawnTimeout
  split
  · dsimp only
    split
    · simp [spawnAnimals_effects]
    · rfl
  · rfl

/-- `startRound` never writes the effect log. -/
theorem startRound_effects (r wi : Nat) (col : Bool) (s : GameState) :
    (startRound r wi col s).effects = s.effects := by
  unfold startRound
  split
  · rfl
  · split
    · dsimp only
      split
      · simp [spawnAnimals_effects]
      · rfl
    · rfl

/-- Touch processing never adds a navigation call to the effect log. -/
theorem processTouch_nav (a : AnimalType) (s : GameState) :
    (processTouch a s).effects.filter Effect.isNavigate =
      s.effects.filter Effect.isNavigate := by
  unfold processTouch
  split
  · rfl
  · split
    · split
      · simp [handleAnimalClick_nav]
      · rfl
    · rfl

/-- No event adds a navigation call to the effect log. -/
theorem step_nav (s : GameState) (e : Event) :
    (step s e).effects.filter Effect.isNavigate =
      s.effects.filter Effect.isNavigate := by
  cases e with
  | sceneLoaded => rfl
  | sceneInit wi col =>
    simp only [step]
    split
    · simp [startRound_effects]
    · rfl
  | touch a =>
    simp only [step]
    exact processTouch_nav a s
  | fire wi col =>
    simp only [step]
    rcases hp : s.pending with _ | ⟨⟨d, t⟩, rest⟩
    · rfl
    · dsimp only
      cases t
      · simp [fireClickTimeout_effects]
      · simp [fireSpawnTimeout_effects]

/-- No event trace adds a navigation call to the effect log. -/
theorem run_nav (evs : List Event) : ∀ s : GameState,
    (run s evs).effects.filter Effect.isNavigate =
      s.effects.filter Effect.isNavigate := by
  induction evs with
  | nil => intro s; rfl
  | cons e es ih => intro s; rw [run, ih, step_nav]

/-- C4 counterexample: in a complete five-round game from the initial
state the round index reaches the terminal count 5 with no timeouts left,
yet the effect log contains no `onNavigate` call — the AR screen never
hands control off to the result flow. -/
theorem no_handoff_after_final_round :
    (run (init "") fullGame).currentRound = TOTAL_ROUNDS ∧
    (run (init "") fullGame).pending = [] ∧
    (run (init "") fullGame).effects.filter Effect.isNavigate = [] := by
  refine ⟨rfl, rfl, rfl⟩

/-- C4 amended: the `onNavigate` callback the AR screen receives is never
invoked: no event adds a navigation call to the effect log, and along
every event trace from the initial state the log contains none. -/
theorem navigate_never_called :
    (∀ s e, (step s e).effects.filter Effect.isNavigate =
      s.effects.filter Effect.isNavigate) ∧
    (∀ b evs, (run (init b) evs).effects.filter Effect.isNavigate = []) :=
  ⟨step_nav, fun b evs => by rw [run_nav evs (init b)]; rfl⟩

end RA2

namespace RA2.Rev2

/-- A correct click in the part_000 second revision: sounds emitted, flags
set, and the 800 ms head of the success chain scheduled (capturing the
click-time round). -/
theorem r2Click_correct (s : R2State) (cfg : AnimalConfig)
    (hAnim : s.isAnimating = false) (hr : s.currentRound < TOTAL_ROUNDS)
    (hc : s.animals.get? s.currentRound = some cfg) :
    (r2Click cfg.name s).currentRound = s.currentRound ∧
    (r2Click cfg.name s).pending =
      s.pending ++ [(800, PendingR.successP1 s.currentRound)] ∧
    (r2Click cfg.name s).selectedAnimal = some cfg.name ∧
    (r2Click cfg.name s).feedbackType = some FeedbackType.success ∧
    (r2Click cfg.name s).isAnimating = true ∧
    (r2Click cfg.name s).now = s.now ∧
    (r2Click cfg.name s).effects =
      s.effects ++ [Effect.playClickSound, Effect.playSuccessSound] := by
  have hca : s.animals[s.currentRound]? = some cfg := by
    rw [← List.get?_eq_getElem?]; exact hc
  unfold r2Click
  simp [hAnim, hr, hca]

/-- An incorrect click in the part_000 second revision: sounds emitted,
flags set, and the single 1700 ms error timeout scheduled. -/
theorem r2Click_wrong (s : R2State) (cfg : AnimalConfig) (a : AnimalType)
    (hAnim : s.isAnimating = false) (hr : s.currentRound < TOTAL_ROUNDS)
    (hc : s.animals.get? s.currentRound = some cfg) (hne : a ≠ cfg.name) :
    (r2Click a s).currentRound = s.currentRound ∧
    (r2Click a s).pending = s.pending ++ [(1700, PendingR.errClear)] ∧
    (r2Click a s).selectedAnimal = some a ∧
    (r2Click a s).feedbackType = some FeedbackType.error ∧
    (r2Click a s).isAnimating = true ∧
    (r2Click a s).now = s.now ∧
    (r2Click a s).effects =
      s.effects ++ [Effect.playClickSound, Effect.playErrorSound] := by
  have hca : s.animals[s.currentRound]? = some cfg := by
    rw [← List.get?_eq_getElem?]; exact hc
  have hne' : cfg.name ≠ a := Ne.symm hne
  unfold r2Click
  simp [hAnim, hr, hca, hne']

/-- Firing the 800 ms head of the success chain: the 600 ms second step is
scheduled, the overlay flags are untouched, and the clock advances by the
fired delay. -/
theorem r2Fire_p1 (wi d l : Nat) (rest : List (Nat × PendingR)) (s : R2State)
    (hp : s.pending = (d, PendingR.successP1 l) :: rest) :
    (r2Fire wi s).pending = rest ++ [(600, PendingR.successP2 l)] ∧
    (r2Fire wi s).currentRound = s.currentRound ∧
    (r2Fire wi s).selectedAnimal = s.selectedAnimal ∧
    (r2Fire wi s).feedbackType = s.feedbackType ∧
    (r2Fire wi s).isAnimating = s.isAnimating ∧
    (r2Fire wi s).animals = s.animals ∧
    (r2Fire wi s).now = s.now + d := by
  unfold r2Fire
  rw [hp]
  dsimp only
  simp

/-- Firing the 600 ms second step of the success chain: the final 600 ms
step is scheduled, the overlay flags are untouched, the clock advances. -/
theorem r2Fire_p2 (wi d l : Nat) (rest : List (Nat × PendingR)) (s : R2State)
    (hp : s.pending = (d, PendingR.successP2 l) :: rest) :
    (r2Fire wi s).pending = rest ++ [(600, PendingR.successP3 l)] ∧
    (r2Fire wi s).currentRound = s.currentRound ∧
    (r2Fire wi s).selectedAnimal = s.selectedAnimal ∧
    (r2Fire wi s).feedbackType = s.feedbackType ∧
    (r2Fire wi s).isAnimating = s.isAnimating ∧
    (r2Fire wi s).animals = s.animals ∧
    (r2Fire wi s).now = s.now + d := by
  unfold r2Fire
  rw [hp]
  dsimp only
  simp

/-- Firing the final step of the success chain: the flags are cleared, the
round advances by exactly 1, and the clock advances. -/
theorem r2Fire_p3 (wi d l : Nat) (rest : List (Nat × PendingR)) (s : R2State)
    (hp : s.pending = (d, PendingR.successP3 l) :: rest) :
    (r2Fire wi s).pending = rest ∧
    (r2Fire wi s).currentRound = s.currentRound + 1 ∧
    (r2Fire wi s).selectedAnimal = none ∧
    (r2Fire wi s).feedbackType = none ∧
    (r2Fire wi s).isAnimating = false ∧
    (r2Fire wi s).animals = s.animals ∧
    (r2Fire wi s).now = s.now + d := by
  unfold r2Fire
  rw [hp]
  dsimp only
  split <;> (try split) <;> (try split) <;> simp

/-- Firing the 1700 ms error timeout: the flags are cleared, the round is
unchanged (the same round is retried), and the clock advances. -/
theorem r2Fire_err (wi d : Nat) (rest : List (Nat × PendingR)) (s : R2State)
    (hp : s.pending = (d, PendingR.errClear) :: rest) :
    (r2Fire wi s).pending = rest ∧
    (r2Fire wi s).currentRound = s.currentRound ∧
    (r2Fire wi s).selectedAnimal = none ∧
    (r2Fire wi s).feedbackType = none ∧
    (r2Fire wi s).isAnimating = false ∧
    (r2Fire wi s).animals = s.animals ∧
    (r2Fire wi s).now = s.now + d := by
  unfold r2Fire
  rw [hp]
  dsimp only
  split <;> (try split) <;> (try split) <;> simp

end RA2.Rev2

namespace RA2

/-- C3 counterexample: in the part_000 second revision, an incorrect
selection at round 0 (clicking `cachorro` when `gato` is correct),
processed to completion (its 1700 ms timeout fired, nothing left pending),
leaves the round index at 0 instead of incrementing it to 1. -/
theorem round_increment_counterexample :
    (Rev2.r2Fire 0 (Rev2.r2Click AnimalType.cachorro (Rev2.r2Idle 0))).currentRound = 0 ∧
    (Rev2.r2Fire 0 (Rev2.r2Click AnimalType.cachorro (Rev2.r2Idle 0))).pending = [] ∧
    (0 : Nat) ≠ 0 + 1 :=
  ⟨rfl, rfl, by decide⟩

/-- C3 amended: the round index starts at 0 and never decreases across any
event; in the ARScreen.tsx revision every processed selection — correct or
incorrect — increments it by exactly 1 (via its 2000 ms timeout); once it
reaches the terminal count 5 the screen is idle: no current animal, empty
top image, and no event changes the round or the scene entities; in the
part_000 second revision a processed correct selection increments the
round by exactly 1 but a processed incorrect selection leaves it
unchanged. -/
theorem round_progression (b : String) (s : GameState) (a : AnimalType)
    (cfg : AnimalConfig) (wi : Nat) (col : Bool) (t : GameState)
    (r2 : Rev2.R2State) (cfg2 : AnimalConfig) (a2 : AnimalType)
    (wi1 wi2 wi3 : Nat)
    (hAnim : s.isAnimating = false) (hp : s.pending = [])
    (hr : s.currentRound < TOTAL_ROUNDS)
    (hc : s.animals.get? s.currentRound = some cfg)
    (ht : t.currentRound = TOTAL_ROUNDS) (htp : t.pending = [])
    (h2Anim : r2.isAnimating = false) (h2p : r2.pending = [])
    (h2r : r2.currentRound < TOTAL_ROUNDS)
    (h2c : r2.animals.get? r2.currentRound = some cfg2)
    (hne : a2 ≠ cfg2.name) :
    (init b).currentRound = 0 ∧
    (∀ s' e, s'.currentRound ≤ (step s' e).currentRound) ∧
    (run s [Event.touch a, Event.fire wi col]).currentRound = s.currentRound + 1 ∧
    currentAnimal t = none ∧
    topImage t = "" ∧
    (∀ e, (step t e).currentRound = t.currentRound ∧
      (step t e).scene.entities = t.scene.entities) ∧
    (Rev2.r2Fire wi3 (Rev2.r2Fire wi2 (Rev2.r2Fire wi1
        (Rev2.r2Click cfg2.name r2)))).currentRound = r2.currentRound + 1 ∧
    (Rev2.r2Fire wi1 (Rev2.r2Click a2 r2)).currentRound = r2.currentRound := by
  have hnt : ¬ t.currentRound < TOTAL_ROUNDS := by rw [ht]; exact lt_irrefl _
  refine ⟨rfl, fun s' e => step_round_mono s' e, ?_, ?_, ?_, ?_, ?_, ?_⟩
  · have hpt := processTouch_eq s a cfg hAnim hr hc
    have hs1 := handleAnimalClick_state a cfg.name s hAnim
    have hpend : (handleAnimalClick a cfg.name s).pending =
        [(2000, PendingT.clickT)] := by
      rw [hs1.2.1, hp]; rfl
    simp only [run, step, hpt, hpend]
    rw [(fireClickTimeout_state _).1]
    simp [hs1.1]
  · simp [currentAnimal, hnt]
  · simp [topImage, currentAnimal, hnt]
  · intro e
    cases e with
    | sceneLoaded => exact ⟨rfl, rfl⟩
    | sceneInit wi' col' =>
      have hng : ¬ (t.sceneReady = true ∧ t.currentRound = 0) := by
        rintro ⟨-, h0⟩
        rw [h0] at ht
        exact absurd ht.symm (by decide)
      simp [step, hng]
    | touch a' => simp [step, processTouch, hnt]
    | fire wi' col' => simp [step, htp]
  · have h1 := Rev2.r2Click_correct r2 cfg2 h2Anim h2r h2c
    have hp1 : (Rev2.r2Click cfg2.name r2).pending =
        (800, Rev2.PendingR.successP1 r2.currentRound) :: [] := by
      rw [h1.2.1, h2p]; rfl
    have h2 := Rev2.r2Fire_p1 wi1 800 r2.currentRound [] _ hp1
    have hp2 : (Rev2.r2Fire wi1 (Rev2.r2Click cfg2.name r2)).pending =
        (600, Rev2.PendingR.successP2 r2.currentRound) :: [] := by
      rw [h2.1]; rfl
    have h3 := Rev2.r2Fire_p2 wi2 600 r2.currentRound [] _ hp2
    have hp3 : (Rev2.r2Fire wi2 (Rev2.r2Fire wi1 (Rev2.r2Click cfg2.name r2))).pending =
        (600, Rev2.PendingR.successP3 r2.currentRound) :: [] := by
      rw [h3.1]; rfl
    have h4 := Rev2.r2Fire_p3 wi3 600 r2.currentRound [] _ hp3
    rw [h4.2.1, h3.2.1, h2.2.1, h1.1]
  · have h1 := Rev2.r2Click_wrong r2 cfg2 a2 h2Anim h2r h2c hne
    have hp1 : (Rev2.r2Click a2 r2).pending =
        (1700, Rev2.PendingR.errClear) :: [] := by
      rw [h1.2.1, h2p]; rfl
    have h2 := Rev2.r2Fire_err wi1 1700 [] _ hp1
    rw [h2.2.1, h1.1]

/-- Witness for `round_progression`: concrete states for all three parts —
the scene-ready initial state at round 0 (clicking `gato`), a terminal
state at round 5, and the second revision's idle round-0 state (clicking
`gato` for the success chain and `cachorro` for the error path). -/
theorem round_progression_witness :
    (init "").currentRound = 0 ∧
    (∀ s' e, s'.currentRound ≤ (step s' e).currentRound) ∧
    (run sReady [Event.touch AnimalType.gato, Event.fire 0 true]).currentRound =
      sReady.currentRound + 1 ∧
    currentAnimal sDone = none ∧
    topImage sDone = "" ∧
    (∀ e, (step sDone e).currentRound = sDone.currentRound ∧
      (step sDone e).scene.entities = sDone.scene.entities) ∧
    (Rev2.r2Fire 0 (Rev2.r2Fire 0 (Rev2.r2Fire 0
        (Rev2.r2Click AnimalType.gato (Rev2.r2Idle 0))))).currentRound =
      (Rev2.r2Idle 0).currentRound + 1 ∧
    (Rev2.r2Fire 0 (Rev2.r2Click AnimalType.cachorro (Rev2.r2Idle 0))).currentRound =
      (Rev2.r2Idle 0).currentRound :=
  round_progression "" sReady AnimalType.gato
    { name := .gato, topImage := "gatotop.png", arImage := "Gato.png" }
    0 true sDone (Rev2.r2Idle 0)
    { name := .gato, topImage := "gatotop.png", arImage := "Gato.png" }
    AnimalType.cachorro 0 0 0
    rfl rfl (by decide) rfl rfl rfl rfl rfl (by decide) rfl (by decide)

/-- C5 counterexample: in the part_000 second revision an incorrect
selection schedules a single 1700 ms timeout, and when it fires (1700 ms,
not 2000 ms, after the click) the feedback flags and selected animal are
already cleared. -/
theorem feedback_duration_counterexample :
    (Rev2.r2Click AnimalType.cachorro (Rev2.r2Idle 0)).pending =
      [(1700, Rev2.PendingR.errClear)] ∧
    (Rev2.r2Fire 0 (Rev2.r2Click AnimalType.cachorro (Rev2.r2Idle 0))).selectedAnimal = none ∧
    (Rev2.r2Fire 0 (Rev2.r2Click AnimalType.cachorro (Rev2.r2Idle 0))).feedbackType = none ∧
    (Rev2.r2Fire 0 (Rev2.r2Click AnimalType.cachorro (Rev2.r2Idle 0))).now = 1700 ∧
    (1700 : Nat) ≠ 2000 :=
  ⟨rfl, rfl, rfl, rfl, by decide⟩

/-- C5 amended: in the ARScreen.tsx revision a processed selection shows
the overlay (selected animal and success/error flag set) and schedules
exactly one 2000 ms timeout, whose firing — for correct and incorrect
selections alike — clears the flags and only then schedules the next spawn
a further 100 ms later (below the terminal round); in the part_000 second
revision a correct selection's overlay is cleared by a chain of 800, 600
and 600 ms timeouts (2000 ms in total, the overlay still up after the
first two) while an incorrect selection's is cleared after a single
1700 ms timeout. -/
theorem feedback_overlay_timing (s : GameState) (a : AnimalType)
    (cfg : AnimalConfig) (wi : Nat) (col : Bool)
    (r2 : Rev2.R2State) (cfg2 : AnimalConfig) (a2 : AnimalType)
    (wi1 wi2 wi3 : Nat)
    (hAnim : s.isAnimating = false) (hp : s.pending = [])
    (hr : s.currentRound < TOTAL_ROUNDS)
    (hc : s.animals.get? s.currentRound = some cfg)
    (h2Anim : r2.isAnimating = false) (h2p : r2.pending = [])
    (h2r : r2.currentRound < TOTAL_ROUNDS)
    (h2c : r2.animals.get? r2.currentRound = some cfg2)
    (h2now : r2.now = 0) (hne : a2 ≠ cfg2.name) :
    (processTouch a s).selectedAnimal = some a ∧
    (processTouch a s).feedbackType =
      some (if a == cfg.name then FeedbackType.success else FeedbackType.error) ∧
    (processTouch a s).pending = [(2000, PendingT.clickT)] ∧
    (run s [Event.touch a, Event.fire wi col]).selectedAnimal = none ∧
    (run s [Event.touch a, Event.fire wi col]).feedbackType = none ∧
    (run s [Event.touch a, Event.fire wi col]).isAnimating = false ∧
    (run s [Event.touch a, Event.fire wi col]).pending =
      (if s.currentRound + 1 < TOTAL_ROUNDS
        then [(100, PendingT.spawnT (s.currentRound + 1))] else []) ∧
    (Rev2.r2Click cfg2.name r2).pending =
      [(800, Rev2.PendingR.successP1 r2.currentRound)] ∧
    (Rev2.r2Fire wi1 (Rev2.r2Click cfg2.name r2)).selectedAnimal =
      some cfg2.name ∧
    (Rev2.r2Fire wi1 (Rev2.r2Click cfg2.name r2)).pending =
      [(600, Rev2.PendingR.successP2 r2.currentRound)] ∧
    (Rev2.r2Fire wi2 (Rev2.r2Fire wi1 (Rev2.r2Click cfg2.name r2))).selectedAnimal =
      some cfg2.name ∧
    (Rev2.r2Fire wi2 (Rev2.r2Fire wi1 (Rev2.r2Click cfg2.name r2))).pending =
      [(600, Rev2.PendingR.successP3 r2.currentRound)] ∧
    (Rev2.r2Fire wi3 (Rev2.r2Fire wi2 (Rev2.r2Fire wi1
        (Rev2.r2Click cfg2.name r2)))).selectedAnimal = none ∧
    (Rev2.r2Fire wi3 (Rev2.r2Fire wi2 (Rev2.r2Fire wi1
        (Rev2.r2Click cfg2.name r2)))).feedbackType = none ∧
    (Rev2.r2Fire wi3 (Rev2.r2Fire wi2 (Rev2.r2Fire wi1
        (Rev2.r2Click cfg2.name r2)))).now = 2000 ∧
    (Rev2.r2Click a2 r2).pending = [(1700, Rev2.PendingR.errClear)] ∧
    (Rev2.r2Fire wi1 (Rev2.r2Click a2 r2)).selectedAnimal = none ∧
    (Rev2.r2Fire wi1 (Rev2.r2Click a2 r2)).feedbackType = none ∧
    (Rev2.r2Fire wi1 (Rev2.r2Click a2 r2)).now = 1700 := by
  have hpt := processTouch_eq s a cfg hAnim hr hc
  obtain ⟨h1round, h1pend, h1sel, h1anim, h1fb, h1animals, h1ready, h1att⟩ :=
    handleAnimalClick_state a cfg.name s hAnim
  have hpend : (handleAnimalClick a cfg.name s).pending =
      [(2000, PendingT.clickT)] := by
    rw [h1pend, hp]; rfl
  obtain ⟨c1round, c1pend, c1sel, c1fb, c1anim, c1now, c1eff⟩ :=
    Rev2.r2Click_correct r2 cfg2 h2Anim h2r h2c
  have hq1 : (Rev2.r2Click cfg2.name r2).pending =
      (800, Rev2.PendingR.successP1 r2.currentRound) :: [] := by
    rw [c1pend, h2p]; rfl
  obtain ⟨f1pend, f1round, f1sel, f1fb, f1anim, f1animals, f1now⟩ :=
    Rev2.r2Fire_p1 wi1 800 r2.currentRound [] _ hq1
  have hq2 : (Rev2.r2Fire wi1 (Rev2.r2Click cfg2.name r2)).pending =
      (600, Rev2.PendingR.successP2 r2.currentRound) :: [] := by
    rw [f1pend]; rfl
  obtain ⟨f2pend, f2round, f2sel, f2fb, f2anim, f2animals, f2now⟩ :=
    Rev2.r2Fire_p2 wi2 600 r2.currentRound [] _ hq2
  have hq3 : (Rev2.r2Fire wi2 (Rev2.r2Fire wi1 (Rev2.r2Click cfg2.name r2))).pending =
      (600, Rev2.PendingR.successP3 r2.currentRound) :: [] := by
    rw [f2pend]; rfl
  obtain ⟨f3pend, f3round, f3sel, f3fb, f3anim, f3animals, f3now⟩ :=
    Rev2.r2Fire_p3 wi3 600 r2.currentRound [] _ hq3
  obtain ⟨e1round, e1pend, e1sel, e1fb, e1anim, e1now, e1eff⟩ :=
    Rev2.r2Click_wrong r2 cfg2 a2 h2Anim h2r h2c hne
  have hqe : (Rev2.r2Click a2 r2).pending =
      (1700, Rev2.PendingR.errClear) :: [] := by
    rw [e1pend, h2p]; rfl
  obtain ⟨g1pend, g1round, g1sel, g1fb, g1anim, g1animals, g1now⟩ :=
    Rev2.r2Fire_err wi1 1700 [] _ hqe
  refine ⟨?_, ?_, ?_, ?_, ?_, ?_, ?_, ?_, ?_, ?_, ?_, ?_, ?_, ?_, ?_, ?_, ?_, ?_, ?_⟩
  · rw [hpt, h1sel]
  · rw [hpt, h1fb]
  · rw [hpt, hpend]
  · simp only [run, step, hpt, hpend]
    rw [(fireClickTimeout_state _).2.1]
  · simp only [run, step, hpt, hpend]
    rw [(fireClickTimeout_state _).2.2.1]
  · simp only [run, step, hpt, hpend]
    rw [(fireClickTimeout_state _).2.2.2.1]
  · simp only [run, step, hpt, hpend]
    rw [(fireClickTimeout_state _).2.2.2.2]
    simp [h1round]
  · rw [hq1]
  · rw [f1sel, c1sel]
  · rw [hq2]
  · rw [f2sel, f1sel, c1sel]
  · rw [hq3]
  · exact f3sel
  · exact f3fb
  · rw [f3now, f2now, f1now, c1now, h2now]
  · rw [hqe]
  · exact g1sel
  · exact g1fb
  · rw [g1now, e1now, h2now]

/-- Witness for `feedback_overlay_timing` at the scene-ready initial
state (clicking `gato`) and at the second revision's idle round-0 state
(clicking `gato` for success, `cachorro` for error). -/
theorem feedback_overlay_timing_witness :
    (processTouch AnimalType.gato sReady).selectedAnimal = some AnimalType.gato ∧
    (processTouch AnimalType.gato sReady).feedbackType =
      some (if AnimalType.gato == AnimalType.gato then FeedbackType.success
        else FeedbackType.error) ∧
    (processTouch AnimalType.gato sReady).pending = [(2000, PendingT.clickT)] ∧
    (run sReady [Event.touch AnimalType.gato, Event.fire 0 true]).selectedAnimal = none ∧
    (run sReady [Event.touch AnimalType.gato, Event.fire 0 true]).feedbackType = none ∧
    (run sReady [Event.touch AnimalType.gato, Event.fire 0 true]).isAnimating = false ∧
    (run sReady [Event.touch AnimalType.gato, Event.fire 0 true]).pending =
      (if sReady.currentRound + 1 < TOTAL_ROUNDS
        then [(100, PendingT.spawnT (sReady.currentRound + 1))] else []) ∧
    (Rev2.r2Click AnimalType.gato (Rev2.r2Idle 0)).pending =
      [(800, Rev2.PendingR.successP1 (Rev2.r2Idle 0).currentRound)] ∧
    (Rev2.r2Fire 0 (Rev2.r2Click AnimalType.gato (Rev2.r2Idle 0))).selectedAnimal =
      some AnimalType.gato ∧
    (Rev2.r2Fire 0 (Rev2.r2Click AnimalType.gato (Rev2.r2Idle 0))).pending =
      [(600, Rev2.PendingR.successP2 (Rev2.r2Idle 0).currentRound)] ∧
    (Rev2.r2Fire 0 (Rev2.r2Fire 0 (Rev2.r2Click AnimalType.gato
        (Rev2.r2Idle 0)))).selectedAnimal = some AnimalType.gato ∧
    (Rev2.r2Fire 0 (Rev2.r2Fire 0 (Rev2.r2Click AnimalType.gato
        (Rev2.r2Idle 0)))).pending =
      [(600, Rev2.PendingR.successP3 (Rev2.r2Idle 0).currentRound)] ∧
    (Rev2.r2Fire 0 (Rev2.r2Fire 0 (Rev2.r2Fire 0 (Rev2.r2Click AnimalType.gato
        (Rev2.r2Idle 0))))).selectedAnimal = none ∧
    (Rev2.r2Fire 0 (Rev2.r2Fire 0 (Rev2.r2Fire 0 (Rev2.r2Click AnimalType.gato
        (Rev2.r2Idle 0))))).feedbackType = none ∧
    (Rev2.r2Fire 0 (Rev2.r2Fire 0 (Rev2.r2Fire 0 (Rev2.r2Click AnimalType.gato
        (Rev2.r2Idle 0))))).now = 2000 ∧
    (Rev2.r2Click AnimalType.cachorro (Rev2.r2Idle 0)).pending =
      [(1700, Rev2.PendingR.errClear)] ∧
    (Rev2.r2Fire 0 (Rev2.r2Click AnimalType.cachorro (Rev2.r2Idle 0))).selectedAnimal = none ∧
    (Rev2.r2Fire 0 (Rev2.r2Click AnimalType.cachorro (Rev2.r2Idle 0))).feedbackType = none ∧
    (Rev2.r2Fire 0 (Rev2.r2Click AnimalType.cachorro (Rev2.r2Idle 0))).now = 1700 :=
  feedback_overlay_timing sReady AnimalType.gato
    { name := .gato, topImage := "gatotop.png", arImage := "Gato.png" }
    0 true (Rev2.r2Idle 0)
    { name := .gato, topImage := "gatotop.png", arImage := "Gato.png" }
    AnimalType.cachorro 0 0 0
    rfl rfl (by decide) rfl rfl rfl (by decide) rfl rfl (by decide)

/-- C8: for every outcome of camera setup — success, success with a failed
`video.play()`, an `AbortError`, or any other error — `setupCamera` ends
with the loading flag cleared and the screen fade-in scheduled (at 100 ms),
and each error outcome is logged to the console. -/
theorem setupCamera_always_recovers :
    (∀ o, (setupCamera o).arLoading = false ∧ (setupCamera o).fadeInDelay = some 100) ∧
    (setupCamera CamOutcome.errAbort).logs = [CamLog.warnAbort] ∧
    (setupCamera CamOutcome.errOther).logs = [CamLog.errorCam] ∧
    (setupCamera (CamOutcome.ok true)).logs = [CamLog.warnPlayFailed] :=
  ⟨fun o => by cases o <;> exact ⟨rfl, rfl⟩, rfl, rfl, rfl⟩

/-- C10: with a correct-entity id stored and the scene ref attached, each
recognized key (`w`, `s`, `a`, `d`, matched case-insensitively, and the
arrow keys) moves exactly one coordinate of the stored position by exactly
`MOVE_STEP = 0.2` in one direction, and any key the handler does not
recognize leaves the position unchanged. -/
theorem wasd_moves_one_coordinate (id : String) (pos : Vec3) :
    wasdHandler (some id) true "w" pos = ⟨pos.x, pos.y, pos.z - MOVE_STEP⟩ ∧
    wasdHandler (some id) true "s" pos = ⟨pos.x, pos.y, pos.z + MOVE_STEP⟩ ∧
    wasdHandler (some id) true "a" pos = ⟨pos.x - MOVE_STEP, pos.y, pos.z⟩ ∧
    wasdHandler (some id) true "d" pos = ⟨pos.x + MOVE_STEP, pos.y, pos.z⟩ ∧
    wasdHandler (some id) true "ArrowUp" pos = ⟨pos.x, pos.y + MOVE_STEP, pos.z⟩ ∧
    wasdHandler (some id) true "ArrowDown" pos = ⟨pos.x, pos.y - MOVE_STEP, pos.z⟩ ∧
    (∀ k : String, jsToLower k ≠ "w" → jsToLower k ≠ "s" → jsToLower k ≠ "a" →
      jsToLower k ≠ "d" → k ≠ "ArrowUp" → k ≠ "ArrowDown" →
      wasdHandler (some id) true k pos = pos) := by
  refine ⟨rfl, rfl, rfl, rfl, rfl, rfl, ?_⟩
  intro k hw hs ha hd hu hd2
  simp only [wasdHandler, if_neg hw, if_neg hs, if_neg ha, if_neg hd, if_neg hu, if_neg hd2]

/-- C9: `worldPositionsToScreenPositions` returns the empty list whenever
the canvas, the THREE global or the camera object is missing; otherwise it
returns one circle per slot whose entity id and stored world position are
both non-null (hence at most two), in order, each keyed by its entity id,
with the animal name looked up in the entity-id map and defaulting to
`gato` when the id is unmapped. -/
theorem worldPositions_screen_circles (cv : Canvas) (proj : Vec3 → Vec3)
    (leftId rightId : Option String) (leftPos rightPos : Option Vec3)
    (m : List (String × AnimalType)) :
    (∀ three cam li ri lp rp,
      worldPositionsToScreenPositions none three cam li ri lp rp m = []) ∧
    worldPositionsToScreenPositions (some cv) false (some proj) leftId rightId
      leftPos rightPos m = [] ∧
    worldPositionsToScreenPositions (some cv) true none leftId rightId
      leftPos rightPos m = [] ∧
    (worldPositionsToScreenPositions (some cv) true (some proj) leftId rightId
        leftPos rightPos m).map (fun c => c.entityId) =
      presentEntityIds leftId rightId leftPos rightPos ∧
    (worldPositionsToScreenPositions (some cv) true (some proj) leftId rightId
        leftPos rightPos m).length ≤ 2 ∧
    (worldPositionsToScreenPositions (some cv) true (some proj) leftId rightId
        leftPos rightPos m).all
      (fun c => c.key == c.entityId &&
        c.animalName == (recordLookup m c.entityId).getD AnimalType.gato) = true := by
  refine ⟨fun three cam li ri lp rp => rfl, rfl, rfl, ?_, ?_, ?_⟩ <;>
    rcases leftId with _ | li <;> rcases leftPos with _ | lp <;>
    rcases rightId with _ | ri <;> rcases rightPos with _ | rp <;>
      simp [worldPositionsToScreenPositions, presentEntityIds]

/-- Witness for `wasd_moves_one_coordinate` at a concrete id, position and
unrecognized key. -/
theorem wasd_moves_one_coordinate_witness :
    wasdHandler (some "entity-1") true "w" ⟨0, 0, 0⟩ = ⟨0, 0, 0 - MOVE_STEP⟩ ∧
    wasdHandler (some "entity-1") true "x" ⟨0, 0, 0⟩ = ⟨0, 0, 0⟩ :=
  ⟨(wasd_moves_one_coordinate "entity-1" ⟨0, 0, 0⟩).1,
   (wasd_moves_one_coordinate "entity-1" ⟨0, 0, 0⟩).2.2.2.2.2.2 "x"
     (by decide) (by decide) (by decide) (by decide) (by decide) (by decide)⟩

end RA2
